import Mathlib

/-!
Shallow embedding of the RigelEngine game-logic core
(src/game_logic/damage_infliction_system.cpp and src/game_logic/game_world.cpp)
together with proofs about its behaviour.

Entities are modelled as a list of component records; the index into the list
plays the role of the entityx entity id.  Destroying an entity sets a
`destroyed` flag; the component-signature iteration of entityx skips destroyed
entities, which the embedding mirrors by checking the flag at visit time.
-/

namespace Rigel

/-- engine::components::WorldPosition: a world-space anchor point (tile units). -/
structure WorldPosition where
  x : Int
  y : Int
deriving DecidableEq

/-- Modelled from the spec: base::Rect (the engine bounding-box type) is not part
of the sources; per the glossary and §3 it is an axis-aligned rectangle given by
its top-left corner and its size. -/
structure Rect where
  topLeftX : Int
  topLeftY : Int
  width : Int
  height : Int
deriving DecidableEq

def Rect.left (r : Rect) : Int := r.topLeftX

def Rect.right (r : Rect) : Int := r.topLeftX + r.width - 1

def Rect.top (r : Rect) : Int := r.topLeftY

def Rect.bottom (r : Rect) : Int := r.topLeftY + r.height - 1

/-- Modelled from the spec: base::Rect::intersects is not part of the sources;
it is the usual axis-aligned rectangle overlap test used for the
"intersection tests" of §3. -/
def Rect.intersects (a b : Rect) : Bool :=
  decide (a.left ≤ b.right ∧ b.left ≤ a.right ∧ a.top ≤ b.bottom ∧ b.top ≤ a.bottom)

/-- Modelled from the spec: engine::toWorldSpace is not part of the sources; per
the glossary a world-space box is "an entity's bounding box translated by its
world position". -/
def toWorldSpace (bbox : Rect) (pos : WorldPosition) : Rect :=
  { bbox with topLeftX := bbox.topLeftX + pos.x, topLeftY := bbox.topLeftY + pos.y }

/-- game_logic::components::DamageInflicting. -/
structure DamageInflicting where
  mAmount : Int
deriving DecidableEq

/-- game_logic::components::Shootable. -/
structure Shootable where
  mHealth : Int
  mGivenScore : Int
deriving DecidableEq

/-- The sound cues played by the embedded code (data::SoundId). -/
inductive SoundId
  | AlternateExplosion
  | EnemyHit
  | BigExplosion
deriving DecidableEq

/-- One entity of the component store: each field models the presence/absence of
the corresponding component.  `destroyed` records that `entity.destroy()` was
called; destroyed entities are skipped by every component-signature scan. -/
structure Entity where
  damage : Option DamageInflicting
  shootable : Option Shootable
  position : Option WorldPosition
  bbox : Option Rect
  collidedWithWorld : Bool
  destroyed : Bool
deriving DecidableEq

abbrev EntityStore := List Entity

/-- Replace the entity at index `i` by `f` applied to it (no-op out of bounds). -/
def modifyEntity (es : EntityStore) (i : Nat) (f : Entity → Entity) : EntityStore :=
  match es, i with
  | [], _ => []
  | e :: rest, 0 => f e :: rest
  | e :: rest, n + 1 => e :: modifyEntity rest n f

/-- State touched by DamageInflictionSystem::update: the entity store, the
player model's score, and the log of sound cues played via the service
provider. -/
structure DamageSystemState where
  entities : EntityStore
  score : Int
  sounds : List SoundId
deriving DecidableEq

/-- Does the indexed entity carry {Shootable, WorldPosition, BoundingBox}, is it
alive, and does its world-space box intersect `inflictorBbox`?  This is the
loop-body test of the inner `entities_with_components` scan. -/
def isLiveShootableHit (inflictorBbox : Rect) (p : Nat × Entity) : Bool :=
  !p.2.destroyed &&
    (match p.2.shootable, p.2.position, p.2.bbox with
     | some _, some pos, some bb => (toWorldSpace bb pos).intersects inflictorBbox
     | _, _, _ => false)

/-- The inner scan of DamageInflictionSystem::update: walk the shootable
entities in enumeration order starting at index `j` and stop at the first whose
world-space box intersects the inflictor's box. -/
def findTargetAux (inflictorBbox : Rect) (j : Nat) : EntityStore → Option (Nat × Entity)
  | [] => none
  | e :: rest =>
    if isLiveShootableHit inflictorBbox (j, e) then some (j, e)
    else findTargetAux inflictorBbox (j + 1) rest

def findTarget (es : EntityStore) (inflictorBbox : Rect) : Option (Nat × Entity) :=
  findTargetAux inflictorBbox 0 es

/-- Processing of one inflictor (index `i`) by the first `es.each` pass of
DamageInflictionSystem::update (src/game_logic/damage_infliction_system.cpp,
lines 52-86): if the entity is alive and carries
{DamageInflicting, WorldPosition, BoundingBox}, scan for the first intersecting
shootable; on a hit destroy the inflictor, subtract the damage amount from the
target's health, and either credit the score, play AlternateExplosion and
destroy the target (health ≤ 0) or play EnemyHit (health > 0). -/
def pass1Step (st : DamageSystemState) (i : Nat) : DamageSystemState :=
  match st.entities[i]? with
  | none => st
  | some e =>
    if e.destroyed then st
    else
      match e.damage, e.position, e.bbox with
      | some damage, some pos, some bb =>
        let inflictorBbox := toWorldSpace bb pos
        match findTarget st.entities inflictorBbox with
        | none => st
        | some (tid, tgt) =>
          let st1 :=
            { st with entities := modifyEntity st.entities i (fun en => { en with destroyed := true }) }
          match tgt.shootable with
          | none => st1
          | some s =>
            let newHealth := s.mHealth - damage.mAmount
            if newHealth ≤ 0 then
              { st1 with
                score := st1.score + s.mGivenScore,
                sounds := st1.sounds ++ [SoundId.AlternateExplosion],
                entities := modifyEntity st1.entities tid (fun en => { en with destroyed := true }) }
            else
              { st1 with
                sounds := st1.sounds ++ [SoundId.EnemyHit],
                entities := modifyEntity st1.entities tid
                  (fun en => { en with shootable := some { s with mHealth := newHealth } }) }
      | _, _, _ => st

/-- The first pass of DamageInflictionSystem::update: visit every entity id in
enumeration order (the component mask is re-checked at visit time, so entities
destroyed earlier in the same pass are skipped). -/
def pass1 (st : DamageSystemState) : DamageSystemState :=
  (List.range st.entities.length).foldl pass1Step st

/-- The second `es.each` pass of DamageInflictionSystem::update (lines 91-98):
every entity carrying {DamageInflicting, CollidedWithWorld} is destroyed. -/
def pass2 (st : DamageSystemState) : DamageSystemState :=
  { st with
    entities := st.entities.map (fun e =>
      if e.damage.isSome && e.collidedWithWorld then { e with destroyed := true } else e) }

namespace DamageInflictionSystem

/-- DamageInflictionSystem::update: the damage-resolution pass followed by the
world-collision destruction pass. -/
def update (st : DamageSystemState) : DamageSystemState :=
  pass2 (pass1 st)

end DamageInflictionSystem

/-! ## Bonus bookkeeping (game_world.cpp, lines 68-99 and 203-245) -/

/-- game_logic::components::ActorTag::Type (the variants relevant to bonus
bookkeeping plus Reactor, which falls into the `default` branch of
countBonusRelatedItems). -/
inductive ActorTagType
  | ShootableCamera
  | FireBomb
  | CollectableWeapon
  | Merchandise
  | ShootableBonusGlobe
  | MountedLaserTurret
  | Reactor
deriving DecidableEq

/-- BonusRelatedItemCounts (game_world.cpp, lines 68-75). -/
structure BonusRelatedItemCounts where
  mCameraCount : Nat
  mFireBombCount : Nat
  mWeaponCount : Nat
  mMerchandiseCount : Nat
  mBonusGlobeCount : Nat
  mLaserTurretCount : Nat
deriving DecidableEq

def emptyCounts : BonusRelatedItemCounts :=
  { mCameraCount := 0, mFireBombCount := 0, mWeaponCount := 0,
    mMerchandiseCount := 0, mBonusGlobeCount := 0, mLaserTurretCount := 0 }

/-- The switch of countBonusRelatedItems (lines 84-96); the `default` branch
leaves the counts unchanged. -/
def countOne (counts : BonusRelatedItemCounts) (tag : ActorTagType) : BonusRelatedItemCounts :=
  match tag with
  | .ShootableCamera => { counts with mCameraCount := counts.mCameraCount + 1 }
  | .FireBomb => { counts with mFireBombCount := counts.mFireBombCount + 1 }
  | .CollectableWeapon => { counts with mWeaponCount := counts.mWeaponCount + 1 }
  | .Merchandise => { counts with mMerchandiseCount := counts.mMerchandiseCount + 1 }
  | .ShootableBonusGlobe => { counts with mBonusGlobeCount := counts.mBonusGlobeCount + 1 }
  | .MountedLaserTurret => { counts with mLaserTurretCount := counts.mLaserTurretCount + 1 }
  | .Reactor => counts

/-- countBonusRelatedItems (game_world.cpp, lines 78-99): tally the ActorTag
components of the entity set. -/
def countBonusRelatedItems (tags : List ActorTagType) : BonusRelatedItemCounts :=
  tags.foldl countOne emptyCounts

/-- data::Bonus. -/
inductive Bonus
  | NoDamageTaken
  | DestroyedAllCameras
  | DestroyedAllFireBombs
  | CollectedAllMerchandise
  | CollectedEveryWeapon
  | DestroyedAllSpinningLaserTurrets
  | ShotAllBonusGlobes
deriving DecidableEq

/-- The BonusInfo member of GameWorld: initial counts recorded by loadLevel plus
the counters accumulated over the level's lifetime. -/
structure BonusInfo where
  mInitialCameraCount : Nat
  mInitialMerchandiseCount : Nat
  mInitialWeaponCount : Nat
  mInitialLaserTurretCount : Nat
  mInitialBonusGlobeCount : Nat
  mNumShotBonusGlobes : Nat
  mPlayerTookDamage : Bool
deriving DecidableEq

/-- The initial-count recording of GameWorld::loadLevel (lines 342-347); the
accumulating members start at zero/false (modelled from the spec: the BonusInfo
member initialisers live in the header, which is not part of the sources, and
§3 says BonusInfo is "reset on level load"). -/
def initialBonusInfo (initialTags : List ActorTagType) : BonusInfo :=
  let counts := countBonusRelatedItems initialTags
  { mInitialCameraCount := counts.mCameraCount,
    mInitialMerchandiseCount := counts.mMerchandiseCount,
    mInitialWeaponCount := counts.mWeaponCount,
    mInitialLaserTurretCount := counts.mLaserTurretCount,
    mInitialBonusGlobeCount := counts.mBonusGlobeCount,
    mNumShotBonusGlobes := 0,
    mPlayerTookDamage := false }

/-- GameWorld::achievedBonuses (game_world.cpp, lines 203-245) over the current
entity set's ActorTag components. -/
def achievedBonuses (info : BonusInfo) (currentTags : List ActorTagType) : Finset Bonus :=
  let bonuses : Finset Bonus := ∅
  let bonuses :=
    if !info.mPlayerTookDamage then insert Bonus.NoDamageTaken bonuses else bonuses
  let counts := countBonusRelatedItems currentTags
  let bonuses :=
    if 0 < info.mInitialCameraCount ∧ counts.mCameraCount = 0 then
      insert Bonus.DestroyedAllCameras bonuses
    else bonuses
  let bonuses :=
    if counts.mFireBombCount = 0 then insert Bonus.DestroyedAllFireBombs bonuses else bonuses
  let bonuses :=
    if 0 < info.mInitialMerchandiseCount ∧ counts.mMerchandiseCount = 0 then
      insert Bonus.CollectedAllMerchandise bonuses
    else bonuses
  let bonuses :=
    if 0 < info.mInitialWeaponCount ∧ counts.mWeaponCount = 0 then
      insert Bonus.CollectedEveryWeapon bonuses
    else bonuses
  let bonuses :=
    if 0 < info.mInitialLaserTurretCount ∧ counts.mLaserTurretCount = 0 then
      insert Bonus.DestroyedAllSpinningLaserTurrets bonuses
    else bonuses
  let bonuses :=
    if info.mInitialBonusGlobeCount = info.mNumShotBonusGlobes then
      insert Bonus.ShotAllBonusGlobes bonuses
    else bonuses
  bonuses

/-! ## levelFileName (game_world.cpp, lines 50-62) -/

def EPISODE_PREFIXES : List Char := ['L', 'M', 'N', 'O']

/-- levelFileName (game_world.cpp, lines 53-62).  The two asserts abort on a
range violation, which the embedding renders as `none`; in the valid range the
result is the episode's prefix letter, the decimal representation of
`level + 1`, and ".MNI". -/
def levelFileName (episode level : Int) : Option String :=
  if 0 ≤ episode ∧ episode < 4 ∧ 0 ≤ level ∧ level < 8 then
    match EPISODE_PREFIXES[episode.toNat]? with
    | some c => some (String.singleton c ++ toString (level + 1) ++ ".MNI")
    | none => none
  else none

/-! ## GameWorld orchestrator state (game_world.cpp) -/

/-- data::TutorialMessageId (the ids the embedded code mentions). -/
inductive TutorialMessageId
  | RadarsStillFunctional
  | EarthQuake
deriving DecidableEq

/-- The player model (data::PlayerModel is external to the sources; only the
members the embedded code touches are modelled: the score mutated by the damage
system and the shown-once set behind tutorialMessages()). -/
structure PlayerModel where
  mScore : Int
  mTutorialMessagesShown : List TutorialMessageId
deriving DecidableEq

/-- CheckpointData: a player-model snapshot plus a world position. -/
structure CheckpointData where
  mState : PlayerModel
  mPosition : WorldPosition
deriving DecidableEq

/-- data::map::Map is external to the sources; it is modelled opaquely, which
is all the restart logic needs (it only copies whole maps around). -/
structure GameMap where
  contents : Nat
deriving DecidableEq

/-- One entry of the level's actor list; external to the sources and modelled
opaquely (the restart logic only swaps whole actor sets). -/
structure Actor where
  ident : Nat
deriving DecidableEq

/-- data::map::BackdropSwitchCondition. -/
inductive BackdropSwitchCondition
  | None
  | OnTeleportation
  | OnReactorDestruction
deriving DecidableEq

/-- base::Color (only white is needed, for the reactor flash). -/
structure Color where
  r : Nat
  g : Nat
  b : Nat
  a : Nat
deriving DecidableEq

def whiteColor : Color := { r := 255, g := 255, b := 255, a := 255 }

/-- The messages the embedded code displays via MessageDisplay::setMessage. -/
inductive GameMessage
  | destroyedEverything
  | tutorialText (ident : TutorialMessageId)
deriving DecidableEq

/-- game_logic::components::TriggerType. -/
inductive TriggerType
  | LevelExit
deriving DecidableEq

/-- An entity carrying {Trigger, WorldPosition} plus the presence of the Active
component (the signature of the handleLevelExit scan). -/
structure TriggerEnt where
  ttype : TriggerType
  pos : WorldPosition
  active : Bool
deriving DecidableEq

/-- Calls into the service provider / systems that the orchestrator makes
during restart, teleport and render, recorded as a log. -/
inductive Effect
  | fadeOut
  | fadeIn
  | render
  | switchBackdrops
  | centerView
deriving DecidableEq

/-- The events relevant to the embedded handlers (rigel::events).  ExitReached
carries mCheckRadarDishes. -/
inductive GEvent
  | playerDied
  | playerTeleported (pos : WorldPosition)
  | exitReached (checkRadarDishes : Bool)
deriving DecidableEq

/-- The GameWorld members the embedded code reads or writes.  External
collaborators appear as the state they contribute: `playerPosition` stands for
mpSystems->player().position(), `playerBBox` for the player's world-space hit
box, `radarDishesPresent` for mRadarDishCounter.radarDishesPresent(),
`liveActors` for the actor entities of the component store, `sounds` and
`effects` for the calls made into the service provider and the systems, and
`eventLog` for the events emitted on the event manager. -/
structure GWState where
  playerModel : PlayerModel
  playerModelAtLevelStart : PlayerModel
  activatedCheckpoint : Option CheckpointData
  playerDied : Bool
  teleportTarget : Option WorldPosition
  levelFinished : Bool
  map : GameMap
  mapAtLevelStart : GameMap
  initialActors : List Actor
  liveActors : List Actor
  playerPosition : WorldPosition
  playerStartPosition : WorldPosition
  playerBBox : Rect
  radarDishesPresent : Bool
  triggers : List TriggerEnt
  backdropSwitchCondition : BackdropSwitchCondition
  backdropSwitched : Bool
  reactorFrames : Option Int
  backdropFlashColor : Option Color
  screenFlashColor : Option Color
  currentMessage : Option GameMessage
  sounds : List SoundId
  effects : List Effect
  eventLog : List GEvent
  screenShakeOffsetX : Int
deriving DecidableEq

/-- GameWorld::showTutorialMessage (lines 603-608). -/
def showTutorialMessage (ident : TutorialMessageId) (st : GWState) : GWState :=
  if ident ∈ st.playerModel.mTutorialMessagesShown then st
  else
    { st with
      currentMessage := some (GameMessage.tutorialText ident),
      playerModel :=
        { st.playerModel with
          mTutorialMessagesShown := st.playerModel.mTutorialMessagesShown ++ [ident] } }

/-- GameWorld::receive(ExitReached) (lines 255-261). -/
def receiveExitReached (checkRadarDishes : Bool) (st : GWState) : GWState :=
  if st.radarDishesPresent && checkRadarDishes then
    showTutorialMessage TutorialMessageId.RadarsStillFunctional st
  else { st with levelFinished := true }

/-- GameWorld::receive(PlayerDied) (lines 264-266). -/
def receivePlayerDied (st : GWState) : GWState :=
  { st with playerDied := true }

/-- GameWorld::receive(PlayerTeleported) (lines 279-281). -/
def receivePlayerTeleported (pos : WorldPosition) (st : GWState) : GWState :=
  { st with teleportTarget := some pos }

/-- Synchronous dispatch of one event to the subscribed GameWorld handlers. -/
def receiveEvent (ev : GEvent) (st : GWState) : GWState :=
  match ev with
  | .playerDied => receivePlayerDied st
  | .playerTeleported pos => receivePlayerTeleported pos st
  | .exitReached b => receiveExitReached b st

/-- mEventManager.emit(ExitReached): the event is recorded and its handler runs
synchronously.  Modelled from the spec: the default of the event's
mCheckRadarDishes member lives outside the sources; §4.5 says the indirection
"lets the radar-dish check intercept it", so the scan-raised event requests the
check. -/
def emitExitReached (st : GWState) : GWState :=
  receiveExitReached true { st with eventLog := st.eventLog ++ [GEvent.exitReached true] }

/-- The loop body of GameWorld::handleLevelExit (lines 493-517) for one entity
carrying {Trigger, WorldPosition, Active} (inactive entities are not visited by
the scan, which the `active` check mirrors). -/
def exitTriggerStep (st : GWState) (t : TriggerEnt) : GWState :=
  if !t.active then st
  else if t.ttype ≠ TriggerType.LevelExit ∨ st.levelFinished then st
  else
    let playerBBox := st.playerBBox
    let playerAboveOrAtTriggerHeight := playerBBox.bottom ≤ t.pos.y
    let touchingTriggerOnXAxis :=
      playerBBox.left ≤ t.pos.x ∧ t.pos.x ≤ playerBBox.right + 1
    if playerAboveOrAtTriggerHeight ∧ touchingTriggerOnXAxis then emitExitReached st
    else st

/-- GameWorld::handleLevelExit (lines 487-518). -/
def handleLevelExit (st : GWState) : GWState :=
  st.triggers.foldl exitTriggerStep st

/-- GameWorld::restartLevel (lines 534-555).  mEntities.reset +
createEntitiesForLevel and mpSystems->restartFromBeginning are external; per
§4.5 they "restore map and actor set from the level-start snapshot" and rebuild
the player from the initial actor list, which the embedding renders as
restoring `liveActors` and placing the player at the level-start position. -/
def restartLevel (st : GWState) : GWState :=
  let st := { st with effects := st.effects ++ [Effect.fadeOut] }
  let st :=
    if st.backdropSwitched then
      { st with effects := st.effects ++ [Effect.switchBackdrops], backdropSwitched := false }
    else st
  let st := { st with map := st.mapAtLevelStart }
  let st := { st with liveActors := st.initialActors, playerPosition := st.playerStartPosition }
  let st := { st with playerModel := st.playerModelAtLevelStart }
  { st with effects := st.effects ++ [Effect.centerView, Effect.render, Effect.fadeIn] }

/-- Modelled from the spec: data::PlayerModel::restoreFromCheckpoint is not part
of the sources; §4.5 says a checkpoint restart "restores the player model from
the checkpoint snapshot". -/
def restoreFromCheckpoint (cpState : PlayerModel) : PlayerModel :=
  cpState

/-- GameWorld::restartFromCheckpoint (lines 558-576).
mpSystems->restartFromCheckpoint is external; per §4.5 it restores the player
position from the checkpoint position without a full actor reset. -/
def restartFromCheckpoint (st : GWState) : GWState :=
  match st.activatedCheckpoint with
  | none => st
  | some cp =>
    let st := { st with effects := st.effects ++ [Effect.fadeOut] }
    let shouldSwitchBackAfterRespawn :=
      st.backdropSwitchCondition = BackdropSwitchCondition.OnTeleportation
    let st :=
      if st.backdropSwitched ∧ shouldSwitchBackAfterRespawn then
        { st with effects := st.effects ++ [Effect.switchBackdrops], backdropSwitched := false }
      else st
    let st := { st with playerModel := restoreFromCheckpoint cp.mState }
    let st := { st with playerPosition := cp.mPosition }
    { st with effects := st.effects ++ [Effect.centerView, Effect.render, Effect.fadeIn] }

/-- GameWorld::handlePlayerDeath (lines 521-531). -/
def handlePlayerDeath (st : GWState) : GWState :=
  if st.playerDied then
    let st := { st with playerDied := false }
    if st.activatedCheckpoint.isSome then restartFromCheckpoint st else restartLevel st
  else st

/-- GameWorld::handleTeleporter (lines 579-600). -/
def handleTeleporter (st : GWState) : GWState :=
  match st.teleportTarget with
  | none => st
  | some target =>
    let st := { st with effects := st.effects ++ [Effect.fadeOut] }
    let st := { st with playerPosition := target, teleportTarget := none }
    let st :=
      if st.backdropSwitchCondition = BackdropSwitchCondition.OnTeleportation then
        { st with
          effects := st.effects ++ [Effect.switchBackdrops],
          backdropSwitched := !st.backdropSwitched }
      else st
    { st with effects := st.effects ++ [Effect.centerView, Effect.render, Effect.fadeIn] }

/-- GameWorld::processEndOfFrameActions (lines 439-445). -/
def processEndOfFrameActions (st : GWState) : GWState :=
  let st := handlePlayerDeath st
  let st := handleLevelExit st
  let st := handleTeleporter st
  { st with screenShakeOffsetX := 0 }

/-- GameWorld::updateReactorDestructionEvent (lines 470-484). -/
def updateReactorDestructionEvent (st : GWState) : GWState :=
  match st.reactorFrames with
  | none => st
  | some framesElapsed =>
    if 14 ≤ framesElapsed then st
    else
      let st1 :=
        if framesElapsed = 13 then
          { st with currentMessage := some GameMessage.destroyedEverything }
        else if framesElapsed % 2 = 1 then
          { st with
            backdropFlashColor := some whiteColor,
            sounds := st.sounds ++ [SoundId.BigExplosion] }
        else st
      { st1 with reactorFrames := some (framesElapsed + 1) }

/-- GameWorld::updateGameLogic (lines 385-401).  The HUD, message-display and
earthquake updates touch no modelled state; mpSystems->update is external and
is abstracted by the list of events it emits during the frame, each dispatched
synchronously to the subscribed handlers (modelled from the spec, §5: handlers
run to completion before the emitting call returns). -/
def updateGameLogic (events : List GEvent) (st : GWState) : GWState :=
  let st := { st with backdropFlashColor := none, screenFlashColor := none }
  let st := if st.reactorFrames.isSome then updateReactorDestructionEvent st else st
  events.foldl (fun s ev => receiveEvent ev s) st

/-- Modelled from the spec: the outer game-mode driver is not part of the
sources; §6 says it calls updateGameLogic, render and processEndOfFrameActions
once per frame in that order. -/
def runFrame (events : List GEvent) (st : GWState) : GWState :=
  processEndOfFrameActions { updateGameLogic events st with
    effects := (updateGameLogic events st).effects ++ [Effect.render] }

/-- The BonusInfo of a running level: initial counts recorded by loadLevel,
plus the took-damage flag and shot-globe counter accumulated by the event
handlers during play. -/
def levelBonusInfo (initialTags : List ActorTagType) (tookDamage : Bool)
    (shotGlobes : Nat) : BonusInfo :=
  { initialBonusInfo initialTags with
    mPlayerTookDamage := tookDamage, mNumShotBonusGlobes := shotGlobes }

/-! ## Concrete states used to evaluate the theorems -/

def exC1A : Entity :=
  { damage := some { mAmount := 5 }, shootable := none,
    position := some { x := 0, y := 0 },
    bbox := some { topLeftX := 0, topLeftY := 0, width := 1, height := 1 },
    collidedWithWorld := false, destroyed := false }

def exC1B : Entity :=
  { damage := none, shootable := some { mHealth := 3, mGivenScore := 100 },
    position := some { x := 0, y := 0 },
    bbox := some { topLeftX := 0, topLeftY := 0, width := 1, height := 1 },
    collidedWithWorld := false, destroyed := false }

def exC1 : DamageSystemState :=
  { entities := [exC1A, exC1B], score := 0, sounds := [] }

def exC8E : Entity :=
  { damage := some { mAmount := 1 }, shootable := none, position := none,
    bbox := none, collidedWithWorld := true, destroyed := false }

def exC8 : DamageSystemState :=
  { entities := [exC8E], score := 0, sounds := [] }

/-- A fully concrete game-world state for evaluating the orchestrator
theorems. -/
def baseGW : GWState :=
  { playerModel := { mScore := 0, mTutorialMessagesShown := [] },
    playerModelAtLevelStart := { mScore := 100, mTutorialMessagesShown := [] },
    activatedCheckpoint := none,
    playerDied := false,
    teleportTarget := none,
    levelFinished := false,
    map := { contents := 5 },
    mapAtLevelStart := { contents := 3 },
    initialActors := [{ ident := 1 }, { ident := 2 }],
    liveActors := [{ ident := 7 }],
    playerPosition := { x := 10, y := 20 },
    playerStartPosition := { x := 1, y := 2 },
    playerBBox := { topLeftX := 10, topLeftY := 17, width := 3, height := 4 },
    radarDishesPresent := false,
    triggers := [],
    backdropSwitchCondition := BackdropSwitchCondition.None,
    backdropSwitched := false,
    reactorFrames := none,
    backdropFlashColor := none,
    screenFlashColor := none,
    currentMessage := none,
    sounds := [],
    effects := [],
    eventLog := [],
    screenShakeOffsetX := 0 }

def exC2 : GWState :=
  { baseGW with
    playerDied := true,
    activatedCheckpoint := some
      { mState := { mScore := 500, mTutorialMessagesShown := [] },
        mPosition := { x := 8, y := 9 } } }

def exC2noCp : GWState := { baseGW with playerDied := true }

def exC3 : GWState := baseGW

def exC4trigger : TriggerEnt :=
  { ttype := TriggerType.LevelExit, pos := { x := 11, y := 25 }, active := true }

/-- Two simultaneously qualifying exit triggers in one frame. -/
def exC4 : GWState := { baseGW with triggers := [exC4trigger, exC4trigger] }

def exC4radar : GWState := { baseGW with radarDishesPresent := true }

def exC5 : GWState := { baseGW with reactorFrames := some 13 }

def exC10 : GWState := { baseGW with teleportTarget := some { x := 42, y := 7 } }

/-! ## Helper lemmas -/

theorem getElem?_modifyEntity (es : EntityStore) (i j : Nat) (f : Entity → Entity) :
    (modifyEntity es i f)[j]? = if i = j then Option.map f es[j]? else es[j]? := by
  induction es generalizing i j with
  | nil => cases i <;> cases j <;> simp [modifyEntity]
  | cons e rest ih =>
    cases i with
    | zero => cases j with
      | zero => simp [modifyEntity]
      | succ j => simp [modifyEntity]
    | succ i => cases j with
      | zero => simp [modifyEntity]
      | succ j => simpa [modifyEntity] using ih i j

theorem findTargetAux_eq_some (inflictorBbox : Rect) (j tid : Nat) (es : EntityStore)
    (tgt : Entity) (h : findTargetAux inflictorBbox j es = some (tid, tgt)) :
    j ≤ tid ∧ es[tid - j]? = some tgt ∧
      isLiveShootableHit inflictorBbox (tid, tgt) = true ∧
      ∀ k, k < tid - j → ∀ e', es[k]? = some e' →
        isLiveShootableHit inflictorBbox (j + k, e') = false := by
  induction es generalizing j with
  | nil => simp [findTargetAux] at h
  | cons e rest ih =>
    rw [findTargetAux] at h
    by_cases hhit : isLiveShootableHit inflictorBbox (j, e) = true
    · rw [if_pos hhit] at h
      have hje : j = tid ∧ e = tgt := by
        have := h
        injection this with this
        exact ⟨congrArg Prod.fst this, congrArg Prod.snd this⟩
      obtain ⟨rfl, rfl⟩ := hje
      refine ⟨le_refl _, by simp, hhit, ?_⟩
      intro k hk
      omega
    · rw [if_neg hhit] at h
      obtain ⟨hle, hget, hhit', hprev⟩ := ih (j + 1) h
      refine ⟨by omega, ?_, hhit', ?_⟩
      · have : tid - j = (tid - (j + 1)) + 1 := by omega
        rw [this, List.getElem?_cons_succ]
        exact hget
      · intro k hk e' hget'
        cases k with
        | zero =>
          rw [List.getElem?_cons_zero] at hget'
          injection hget' with hget'
          subst hget'
          simpa using eq_false_of_ne_true hhit
        | succ k =>
          rw [List.getElem?_cons_succ] at hget'
          have : j + (k + 1) = (j + 1) + k := by omega
          rw [this]
          exact hprev k (by omega) e' hget'

theorem findTarget_eq_some (es : EntityStore) (inflictorBbox : Rect) (tid : Nat)
    (tgt : Entity) (h : findTarget es inflictorBbox = some (tid, tgt)) :
    es[tid]? = some tgt ∧ isLiveShootableHit inflictorBbox (tid, tgt) = true ∧
      ∀ k, k < tid → ∀ e', es[k]? = some e' →
        isLiveShootableHit inflictorBbox (k, e') = false := by
  obtain ⟨_, hget, hhit, hprev⟩ := findTargetAux_eq_some inflictorBbox 0 tid es tgt h
  refine ⟨by simpa using hget, hhit, ?_⟩
  intro k hk e' hget'
  simpa using hprev k (by omega) e' hget'

theorem static_modifyEntity (es : EntityStore) (i j : Nat) (f : Entity → Entity)
    (hf : ∀ e, ((f e).damage, (f e).collidedWithWorld) = (e.damage, e.collidedWithWorld)) :
    Option.map (fun e => (e.damage, e.collidedWithWorld)) (modifyEntity es i f)[j]? =
    Option.map (fun e => (e.damage, e.collidedWithWorld)) es[j]? := by
  rw [getElem?_modifyEntity]
  split
  · cases es[j]? <;> simp [hf]
  · rfl

theorem staticView_pass1Step (st : DamageSystemState) (i j : Nat) :
    Option.map (fun e => (e.damage, e.collidedWithWorld)) (pass1Step st i).entities[j]? =
    Option.map (fun e => (e.damage, e.collidedWithWorld)) st.entities[j]? := by
  rw [pass1Step]
  cases hie : st.entities[i]? with
  | none => rfl
  | some e =>
    simp only []
    by_cases hd : e.destroyed = true
    · rw [if_pos hd]
    · rw [if_neg hd]
      cases hdm : e.damage with
      | none => rfl
      | some damage =>
        cases hp : e.position with
        | none => rfl
        | some pos =>
          cases hb : e.bbox with
          | none => rfl
          | some bb =>
            simp only []
            cases hft : findTarget st.entities (toWorldSpace bb pos) with
            | none => rfl
            | some tpl =>
              obtain ⟨tid, tgt⟩ := tpl
              simp only []
              cases hsh : tgt.shootable with
              | none =>
                simp only []
                rw [static_modifyEntity _ i j (fun en => { en with destroyed := true }) (fun e => rfl)]
              | some s =>
                simp only []
                by_cases hkill : s.mHealth - damage.mAmount ≤ 0
                · rw [if_pos hkill]
                  simp only []
                  rw [static_modifyEntity _ tid j (fun en => { en with destroyed := true }) (fun e => rfl),
                    static_modifyEntity _ i j (fun en => { en with destroyed := true }) (fun e => rfl)]
                · rw [if_neg hkill]
                  simp only []
                  rw [static_modifyEntity _ tid j
                      (fun en => { en with shootable := some ({ s with mHealth := s.mHealth - damage.mAmount }) })
                      (fun e => rfl),
                    static_modifyEntity _ i j (fun en => { en with destroyed := true }) (fun e => rfl)]

theorem staticView_pass1 (st : DamageSystemState) (j : Nat) :
    Option.map (fun e => (e.damage, e.collidedWithWorld)) (pass1 st).entities[j]? =
    Option.map (fun e => (e.damage, e.collidedWithWorld)) st.entities[j]? := by
  rw [pass1]
  generalize List.range st.entities.length = l
  induction l generalizing st with
  | nil => rfl
  | cons i l ih =>
    rw [List.foldl_cons]
    rw [ih (pass1Step st i)]
    exact staticView_pass1Step st i j

/-! ## Claim theorems -/

/-- C1: for an entity carrying {DamageInflicting, WorldPosition, BoundingBox},
the damage system scans shootable entities in stable enumeration order; on the
first one whose world-space box intersects the inflictor's world-space box, the
inflictor is destroyed and the target's health drops by the damage amount; if
the resulting health is ≤ 0 the target's givenScore is added to the player's
score, the kill cue plays and the target is destroyed, otherwise only the hit
cue plays, the target survives and the score is unchanged; no other entity is
affected (the scan stops at the first match). -/
theorem C1_damage_resolution (st : DamageSystemState) (i tid : Nat)
    (e tgt : Entity) (damage : DamageInflicting) (pos : WorldPosition) (bb : Rect)
    (s : Shootable)
    (hi : st.entities[i]? = some e)
    (halive : e.destroyed = false)
    (hdmg : e.damage = some damage)
    (hpos : e.position = some pos)
    (hbb : e.bbox = some bb)
    (hfind : findTarget st.entities (toWorldSpace bb pos) = some (tid, tgt))
    (hs : tgt.shootable = some s)
    (hne : tid ≠ i) :
    (st.entities[tid]? = some tgt ∧
       isLiveShootableHit (toWorldSpace bb pos) (tid, tgt) = true ∧
       ∀ k, k < tid → ∀ e', st.entities[k]? = some e' →
         isLiveShootableHit (toWorldSpace bb pos) (k, e') = false) ∧
    Option.map Entity.destroyed (pass1Step st i).entities[i]? = some true ∧
    (s.mHealth - damage.mAmount ≤ 0 →
       Option.map Entity.destroyed (pass1Step st i).entities[tid]? = some true ∧
       (pass1Step st i).score = st.score + s.mGivenScore ∧
       (pass1Step st i).sounds = st.sounds ++ [SoundId.AlternateExplosion]) ∧
    (0 < s.mHealth - damage.mAmount →
       Option.map Entity.shootable (pass1Step st i).entities[tid]? =
         some (some { s with mHealth := s.mHealth - damage.mAmount }) ∧
       Option.map Entity.destroyed (pass1Step st i).entities[tid]? = some false ∧
       (pass1Step st i).score = st.score ∧
       (pass1Step st i).sounds = st.sounds ++ [SoundId.EnemyHit]) ∧
    (∀ j, j ≠ i → j ≠ tid → (pass1Step st i).entities[j]? = st.entities[j]?) := by
  obtain ⟨hgetTid, hhit, hfirst⟩ := findTarget_eq_some _ _ _ _ hfind
  have htgtAlive : tgt.destroyed = false := by
    unfold isLiveShootableHit at hhit
    simp only [Bool.and_eq_true, Bool.not_eq_true'] at hhit
    exact hhit.1
  have hstep : pass1Step st i =
      (if s.mHealth - damage.mAmount ≤ 0 then
        { st with
          score := st.score + s.mGivenScore,
          sounds := st.sounds ++ [SoundId.AlternateExplosion],
          entities := modifyEntity
            (modifyEntity st.entities i (fun en => { en with destroyed := true })) tid
            (fun en => { en with destroyed := true }) }
      else
        { st with
          sounds := st.sounds ++ [SoundId.EnemyHit],
          entities := modifyEntity
            (modifyEntity st.entities i (fun en => { en with destroyed := true })) tid
            (fun en =>
              { en with shootable := some ({ s with mHealth := s.mHealth - damage.mAmount }) }) }) := by
    rw [pass1Step, hi]
    simp only [halive, hdmg, hpos, hbb, hfind, hs]
    rfl
  refine ⟨⟨hgetTid, hhit, hfirst⟩, ?_, ?_, ?_, ?_⟩
  · rw [hstep]
    by_cases hkill : s.mHealth - damage.mAmount ≤ 0
    · rw [if_pos hkill]
      simp only [getElem?_modifyEntity, if_neg hne, if_pos rfl, hi]
      rfl
    · rw [if_neg hkill]
      simp only [getElem?_modifyEntity, if_neg hne, if_pos rfl, hi]
      rfl
  · intro hkill
    rw [hstep, if_pos hkill]
    refine ⟨?_, rfl, rfl⟩
    simp only [getElem?_modifyEntity, if_pos rfl]
    by_cases hij : i = tid
    · rw [if_pos hij]
      rw [hij] at hi
      rw [hi]
      rfl
    · rw [if_neg hij, hgetTid]
      rfl
  · intro hsurv
    have hkill : ¬ (s.mHealth - damage.mAmount ≤ 0) := by omega
    rw [hstep, if_neg hkill]
    refine ⟨?_, ?_, rfl, rfl⟩
    · simp only [getElem?_modifyEntity, if_pos rfl]
      by_cases hij : i = tid
      · exact absurd hij.symm hne
      · rw [if_neg hij, hgetTid]
        rfl
    · simp only [getElem?_modifyEntity, if_pos rfl]
      by_cases hij : i = tid
      · exact absurd hij.symm hne
      · rw [if_neg hij, hgetTid]
        simp [htgtAlive]
  · intro j hji hjt
    rw [hstep]
    by_cases hkill : s.mHealth - damage.mAmount ≤ 0
    · rw [if_pos hkill]
      simp only [getElem?_modifyEntity]
      rw [if_neg (fun h => hjt h.symm), if_neg (fun h => hji h.symm)]
    · rw [if_neg hkill]
      simp only [getElem?_modifyEntity]
      rw [if_neg (fun h => hjt h.symm), if_neg (fun h => hji h.symm)]

/-- C1 witness: an inflictor with amount 5 overlapping a shootable with health
3 and givenScore 100 kills the target, credits the score, and destroys both. -/
theorem C1_damage_resolution_witness :
    Option.map Entity.destroyed (pass1Step exC1 0).entities[0]? = some true ∧
    Option.map Entity.destroyed (pass1Step exC1 0).entities[1]? = some true ∧
    (pass1Step exC1 0).score = exC1.score + 100 ∧
    (pass1Step exC1 0).sounds = exC1.sounds ++ [SoundId.AlternateExplosion] := by
  have h := C1_damage_resolution exC1 0 1 exC1A exC1B { mAmount := 5 } { x := 0, y := 0 }
    { topLeftX := 0, topLeftY := 0, width := 1, height := 1 } { mHealth := 3, mGivenScore := 100 }
    rfl rfl rfl rfl rfl (by decide) rfl (by decide)
  obtain ⟨-, hinf, hkill, -, -⟩ := h
  have hk := hkill (by decide)
  exact ⟨hinf, hk.1, hk.2.1, hk.2.2⟩

/-- C8: every entity carrying both DamageInflicting and CollidedWithWorld is
destroyed unconditionally by the damage system's update, independently of how
many Shootable entities exist. -/
theorem C8_world_collision (st : DamageSystemState) (i : Nat) (e : Entity)
    (hi : st.entities[i]? = some e)
    (hd : e.damage.isSome = true)
    (hc : e.collidedWithWorld = true) :
    Option.map Entity.destroyed (DamageInflictionSystem.update st).entities[i]? = some true := by
  rw [DamageInflictionSystem.update, pass2]
  have hstatic := staticView_pass1 st i
  rw [hi] at hstatic
  simp only [List.getElem?_map]
  cases hpe : (pass1 st).entities[i]? with
  | none => rw [hpe] at hstatic; simp at hstatic
  | some e' =>
    rw [hpe] at hstatic
    simp only [Option.map_some'] at hstatic
    have hpairs := Option.some.inj hstatic
    have hpair : e'.damage = e.damage ∧ e'.collidedWithWorld = e.collidedWithWorld :=
      ⟨congrArg Prod.fst hpairs, congrArg Prod.snd hpairs⟩
    have hcond : (e'.damage.isSome && e'.collidedWithWorld) = true := by
      rw [hpair.1, hpair.2, hd, hc]
      rfl
    simp only [Option.map_some', hcond, if_true]

/-- C8 witness: a single damaging entity that collided with the world, with
zero Shootable targets present, is destroyed by the update. -/
theorem C8_world_collision_witness :
    (∀ en ∈ exC8.entities, en.shootable = none) ∧
    Option.map Entity.destroyed (DamageInflictionSystem.update exC8).entities[0]? = some true :=
  ⟨by decide, C8_world_collision exC8 0 exC8E rfl rfl rfl⟩

/-- C2: when the pending-death flag is set at end of frame, an activated
checkpoint restores the player model from the checkpoint snapshot and places
the player at the checkpoint position without touching the actor set or the
map; without a checkpoint, the map, the actor set and the player model are all
restored from the level-start snapshots. -/
theorem C2_restart_snapshot (st : GWState) (hdied : st.playerDied = true) :
    (∀ cp, st.activatedCheckpoint = some cp →
       (handlePlayerDeath st).playerModel = cp.mState ∧
       (handlePlayerDeath st).playerPosition = cp.mPosition ∧
       (handlePlayerDeath st).liveActors = st.liveActors ∧
       (handlePlayerDeath st).map = st.map) ∧
    (st.activatedCheckpoint = none →
       (handlePlayerDeath st).map = st.mapAtLevelStart ∧
       (handlePlayerDeath st).liveActors = st.initialActors ∧
       (handlePlayerDeath st).playerModel = st.playerModelAtLevelStart) := by
  constructor
  · intro cp hcp
    simp only [handlePlayerDeath, hdied, if_true, hcp, Option.isSome_some, restartFromCheckpoint,
      restoreFromCheckpoint]
    split <;> simp
  · intro hnone
    simp only [handlePlayerDeath, hdied, if_true, hnone, Option.isSome_none, Bool.false_eq_true,
      if_false, restartLevel]
    split <;> simp

/-- C2 witness: a pending death with an activated checkpoint restores the
checkpoint player model and position and keeps the live actors and map. -/
theorem C2_restart_snapshot_witness :
    (handlePlayerDeath exC2).playerModel = { mScore := 500, mTutorialMessagesShown := [] } ∧
    (handlePlayerDeath exC2).playerPosition = { x := 8, y := 9 } ∧
    (handlePlayerDeath exC2).liveActors = exC2.liveActors ∧
    (handlePlayerDeath exC2).map = exC2.map :=
  (C2_restart_snapshot exC2 rfl).1
    { mState := { mScore := 500, mTutorialMessagesShown := [] }, mPosition := { x := 8, y := 9 } }
    rfl

/-- C5: with the reactor-destruction frame counter active, counter value 13
triggers the "destroyed everything" message (and advances to the inert value
14); each of the counter values 1, 3, 5, 7, 9, 11 triggers a white backdrop
flash plus a big-explosion sound; every update at a counter value ≥ 14 is a
no-op, leaving the counter present. -/
theorem C5_reactor_sequence (st : GWState) (n : Int) (hframes : st.reactorFrames = some n) :
    (14 ≤ n → updateReactorDestructionEvent st = st) ∧
    (n = 13 →
       (updateReactorDestructionEvent st).currentMessage = some GameMessage.destroyedEverything ∧
       (updateReactorDestructionEvent st).reactorFrames = some 14 ∧
       (updateReactorDestructionEvent st).sounds = st.sounds ∧
       (updateReactorDestructionEvent st).backdropFlashColor = st.backdropFlashColor) ∧
    ((n = 1 ∨ n = 3 ∨ n = 5 ∨ n = 7 ∨ n = 9 ∨ n = 11) →
       (updateReactorDestructionEvent st).backdropFlashColor = some whiteColor ∧
       (updateReactorDestructionEvent st).sounds = st.sounds ++ [SoundId.BigExplosion] ∧
       (updateReactorDestructionEvent st).currentMessage = st.currentMessage ∧
       (updateReactorDestructionEvent st).reactorFrames = some (n + 1)) := by
  refine ⟨?_, ?_, ?_⟩
  · intro h14
    rw [updateReactorDestructionEvent, hframes]
    simp only []
    rw [if_pos h14]
  · intro h13
    subst h13
    rw [updateReactorDestructionEvent, hframes]
    norm_num
  · intro hodd
    rw [updateReactorDestructionEvent, hframes]
    rcases hodd with h | h | h | h | h | h <;> subst h <;> norm_num

/-- C5 witness: at counter value 13 the "destroyed everything" message is shown
and the counter advances to 14. -/
theorem C5_reactor_sequence_witness :
    (updateReactorDestructionEvent exC5).currentMessage = some GameMessage.destroyedEverything ∧
    (updateReactorDestructionEvent exC5).reactorFrames = some 14 ∧
    (updateReactorDestructionEvent exC5).sounds = exC5.sounds ∧
    (updateReactorDestructionEvent exC5).backdropFlashColor = exC5.backdropFlashColor :=
  (C5_reactor_sequence exC5 13 rfl).2.1 rfl

/-- C10: a pending teleport is consumed exactly once — with no pending target
handleTeleporter changes nothing at all; with a pending target it moves the
player there and clears the target, so a second invocation without a new
PlayerTeleported event is a no-op. -/
theorem C10_teleport_consumed (st : GWState) :
    (st.teleportTarget = none → handleTeleporter st = st) ∧
    (∀ p, st.teleportTarget = some p →
       (handleTeleporter st).teleportTarget = none ∧
       (handleTeleporter st).playerPosition = p) ∧
    handleTeleporter (handleTeleporter st) = handleTeleporter st := by
  have hnone : ∀ s : GWState, s.teleportTarget = none → handleTeleporter s = s := by
    intro s h
    rw [handleTeleporter, h]
  have hsome : ∀ p, st.teleportTarget = some p →
      (handleTeleporter st).teleportTarget = none ∧
      (handleTeleporter st).playerPosition = p := by
    intro p hp
    rw [handleTeleporter, hp]
    simp only []
    split <;> simp
  refine ⟨hnone st, hsome, ?_⟩
  cases hp : st.teleportTarget with
  | none => rw [hnone st hp, hnone st hp]
  | some p => exact hnone _ (hsome p hp).1

/-- C10 witness: a pending teleport to (42, 7) moves the player there, clears
the pending target, and a second pass changes nothing. -/
theorem C10_teleport_consumed_witness :
    (handleTeleporter exC10).teleportTarget = none ∧
    (handleTeleporter exC10).playerPosition = { x := 42, y := 7 } ∧
    handleTeleporter (handleTeleporter exC10) = handleTeleporter exC10 :=
  ⟨((C10_teleport_consumed exC10).2.1 { x := 42, y := 7 } rfl).1,
   ((C10_teleport_consumed exC10).2.1 { x := 42, y := 7 } rfl).2,
   (C10_teleport_consumed exC10).2.2⟩

set_option maxHeartbeats 1000000 in
/-- C6: each bonus category of achievedBonuses is awarded exactly when the
initial count recorded at level load was nonzero and the current count has
dropped to zero; the bonus-globe award holds exactly when the number of shot
globes equals the number of globes present at level start. -/
theorem C6_bonus_rules (initialTags currentTags : List ActorTagType)
    (tookDamage : Bool) (shotGlobes : Nat) :
    (Bonus.DestroyedAllCameras ∈
        achievedBonuses (levelBonusInfo initialTags tookDamage shotGlobes) currentTags ↔
       (0 < (countBonusRelatedItems initialTags).mCameraCount ∧
        (countBonusRelatedItems currentTags).mCameraCount = 0)) ∧
    (Bonus.CollectedAllMerchandise ∈
        achievedBonuses (levelBonusInfo initialTags tookDamage shotGlobes) currentTags ↔
       (0 < (countBonusRelatedItems initialTags).mMerchandiseCount ∧
        (countBonusRelatedItems currentTags).mMerchandiseCount = 0)) ∧
    (Bonus.CollectedEveryWeapon ∈
        achievedBonuses (levelBonusInfo initialTags tookDamage shotGlobes) currentTags ↔
       (0 < (countBonusRelatedItems initialTags).mWeaponCount ∧
        (countBonusRelatedItems currentTags).mWeaponCount = 0)) ∧
    (Bonus.DestroyedAllSpinningLaserTurrets ∈
        achievedBonuses (levelBonusInfo initialTags tookDamage shotGlobes) currentTags ↔
       (0 < (countBonusRelatedItems initialTags).mLaserTurretCount ∧
        (countBonusRelatedItems currentTags).mLaserTurretCount = 0)) ∧
    (Bonus.ShotAllBonusGlobes ∈
        achievedBonuses (levelBonusInfo initialTags tookDamage shotGlobes) currentTags ↔
       (countBonusRelatedItems initialTags).mBonusGlobeCount = shotGlobes) := by
  simp only [achievedBonuses, levelBonusInfo, initialBonusInfo]
  split_ifs <;> simp_all [Finset.mem_insert]

/-- C7: with zero fire bombs at level start (and hence a zero current count),
achievedBonuses still awards the "destroyed all fire bombs" bonus. -/
theorem C7_firebomb_quirk (initialTags currentTags : List ActorTagType) (info : BonusInfo)
    (hinit : (countBonusRelatedItems initialTags).mFireBombCount = 0)
    (hcur : (countBonusRelatedItems currentTags).mFireBombCount = 0) :
    Bonus.DestroyedAllFireBombs ∈ achievedBonuses info currentTags := by
  simp only [achievedBonuses, hcur, eq_self_iff_true, if_true]
  split_ifs <;> simp [Finset.mem_insert]

/-- C7 witness: a level with no fire bombs at all still grants the fire-bomb
bonus. -/
theorem C7_firebomb_quirk_witness :
    (countBonusRelatedItems ([] : List ActorTagType)).mFireBombCount = 0 ∧
    Bonus.DestroyedAllFireBombs ∈ achievedBonuses (levelBonusInfo [] false 0) [] :=
  ⟨rfl, C7_firebomb_quirk [] [] (levelBonusInfo [] false 0) rfl rfl⟩

/-- C9: levelFileName demands an episode index in [0, 3] and a level index in
[0, 7] (the asserts abort otherwise, rendered as `none`); within the range the
episode-prefix table access is in bounds and the result is the episode's prefix
letter ('L', 'M', 'N' or 'O') followed by the decimal representation of
level + 1 followed by ".MNI". -/
theorem C9_levelFileName (episode level : Int) :
    (0 ≤ episode ∧ episode < 4 ∧ 0 ≤ level ∧ level < 8 →
       episode.toNat < EPISODE_PREFIXES.length ∧
       ∃ c, EPISODE_PREFIXES[episode.toNat]? = some c ∧
         (c = 'L' ∨ c = 'M' ∨ c = 'N' ∨ c = 'O') ∧
         levelFileName episode level =
           some (String.singleton c ++ toString (level + 1) ++ ".MNI")) ∧
    (¬(0 ≤ episode ∧ episode < 4 ∧ 0 ≤ level ∧ level < 8) →
       levelFileName episode level = none) := by
  constructor
  · rintro ⟨h0, h4, hl0, hl8⟩
    have hlen : EPISODE_PREFIXES.length = 4 := rfl
    have hlt : episode.toNat < EPISODE_PREFIXES.length := by
      rw [hlen]
      omega
    have hcases : episode.toNat = 0 ∨ episode.toNat = 1 ∨ episode.toNat = 2 ∨
        episode.toNat = 3 := by omega
    refine ⟨hlt, ?_⟩
    have hfile : levelFileName episode level =
        match EPISODE_PREFIXES[episode.toNat]? with
        | some c => some (String.singleton c ++ toString (level + 1) ++ ".MNI")
        | none => none := by
      rw [levelFileName, if_pos ⟨h0, h4, hl0, hl8⟩]
      try rfl
    rcases hcases with h | h | h | h <;> rw [h] at hfile ⊢ <;>
      exact ⟨_, rfl, by simp [EPISODE_PREFIXES], by simpa using hfile⟩
  · intro h
    rw [levelFileName, if_neg h]

/-- C9 witness: episode 0, level 0 is in range and yields "L1.MNI". -/
theorem C9_levelFileName_witness :
    (0:Int).toNat < EPISODE_PREFIXES.length ∧
    ∃ c, EPISODE_PREFIXES[(0:Int).toNat]? = some c ∧
      (c = 'L' ∨ c = 'M' ∨ c = 'N' ∨ c = 'O') ∧
      levelFileName 0 0 = some (String.singleton c ++ toString ((0:Int) + 1) ++ ".MNI") :=
  (C9_levelFileName 0 0).1 (by decide)

theorem receiveExitReached_eventLog (b : Bool) (s : GWState) :
    (receiveExitReached b s).eventLog = s.eventLog := by
  rw [receiveExitReached]
  split
  · rw [showTutorialMessage]
    split <;> rfl
  · rfl

theorem emitExitReached_eventLog (s : GWState) :
    (emitExitReached s).eventLog = s.eventLog ++ [GEvent.exitReached true] := by
  rw [emitExitReached, receiveExitReached_eventLog]

/-- C4 counterexample: with the level not yet finished, two active LevelExit
triggers that both satisfy the geometric activation condition are scanned in
the same frame, yet only one ExitReached event is raised — the first raise
finishes the level and the scan's levelFinished guard suppresses the second.
The claim's "raised exactly when the geometric condition holds" is false for
the second trigger. -/
theorem C4_level_exit_counterexample :
    exC4.levelFinished = false ∧
    (exC4.triggers.filter (fun t =>
        t.active && decide (t.ttype = TriggerType.LevelExit ∧
          exC4.playerBBox.bottom ≤ t.pos.y ∧ exC4.playerBBox.left ≤ t.pos.x ∧
          t.pos.x ≤ exC4.playerBBox.right + 1))).length = 2 ∧
    (handleLevelExit exC4).eventLog.length = 1 ∧
    ¬((handleLevelExit exC4).eventLog.length =
        (exC4.triggers.filter (fun t =>
          t.active && decide (t.ttype = TriggerType.LevelExit ∧
            exC4.playerBBox.bottom ≤ t.pos.y ∧ exC4.playerBBox.left ≤ t.pos.x ∧
            t.pos.x ≤ exC4.playerBBox.right + 1))).length) := by
  decide

/-- C4 (amended): for an entity carrying {Trigger, WorldPosition, Active}
examined by the end-of-frame scan, an ExitReached event is raised exactly when
the trigger is a LevelExit, the level is not already marked finished at the
moment the trigger is examined, the player's hit-box bottom is at or above the
trigger's y-position, and the trigger's x lies within [playerLeft,
playerRight + 1]; when no event is raised the scan leaves the level-finished
flag unchanged (the scan never finishes the level directly); the ExitReached
handler marks the level finished unless radar dishes are present and the event
requests the radar check, in which case it shows the "radars still active"
tutorial message (when not already shown) and leaves the flag unchanged. -/
theorem C4_level_exit (st : GWState) (t : TriggerEnt) :
    ((exitTriggerStep st t).eventLog = st.eventLog ++ [GEvent.exitReached true] ↔
       (t.active = true ∧ t.ttype = TriggerType.LevelExit ∧ st.levelFinished = false ∧
        st.playerBBox.bottom ≤ t.pos.y ∧ st.playerBBox.left ≤ t.pos.x ∧
        t.pos.x ≤ st.playerBBox.right + 1)) ∧
    ((exitTriggerStep st t).eventLog = st.eventLog →
       (exitTriggerStep st t).levelFinished = st.levelFinished) ∧
    (st.radarDishesPresent = true →
       (receiveExitReached true st).levelFinished = st.levelFinished ∧
       (TutorialMessageId.RadarsStillFunctional ∉ st.playerModel.mTutorialMessagesShown →
         (receiveExitReached true st).currentMessage =
           some (GameMessage.tutorialText TutorialMessageId.RadarsStillFunctional))) ∧
    (∀ b, st.radarDishesPresent = false ∨ b = false →
       (receiveExitReached b st).levelFinished = true) := by
  have hstepRaise : t.active = true → t.ttype = TriggerType.LevelExit →
      st.levelFinished = false →
      (st.playerBBox.bottom ≤ t.pos.y ∧ st.playerBBox.left ≤ t.pos.x ∧
        t.pos.x ≤ st.playerBBox.right + 1) →
      exitTriggerStep st t = emitExitReached st := by
    intro h1 h2 h3 h4
    rw [exitTriggerStep, if_neg (by simp [h1]), if_neg (by simp [h2, h3])]
    simp only []
    rw [if_pos ⟨h4.1, h4.2.1, h4.2.2⟩]
  have hstepId :
      ¬(t.active = true ∧ t.ttype = TriggerType.LevelExit ∧ st.levelFinished = false ∧
        st.playerBBox.bottom ≤ t.pos.y ∧ st.playerBBox.left ≤ t.pos.x ∧
        t.pos.x ≤ st.playerBBox.right + 1) →
      exitTriggerStep st t = st := by
    intro hn
    rw [exitTriggerStep]
    by_cases h1 : t.active = true
    · by_cases h2 : t.ttype = TriggerType.LevelExit
      · by_cases h3 : st.levelFinished = true
        · rw [if_neg (by simp [h1]), if_pos (Or.inr h3)]
        · have h3' : st.levelFinished = false := by
            revert h3
            cases st.levelFinished <;> simp
          rw [if_neg (by simp [h1]), if_neg (by simp [h2, h3'])]
          simp only []
          rw [if_neg (fun hg => hn ⟨h1, h2, h3', hg.1, hg.2.1, hg.2.2⟩)]
      · rw [if_neg (by simp [h1]), if_pos (Or.inl h2)]
    · rw [if_pos (by revert h1; cases t.active <;> simp)]
  refine ⟨?_, ?_, ?_, ?_⟩
  · by_cases hall : (t.active = true ∧ t.ttype = TriggerType.LevelExit ∧
        st.levelFinished = false ∧ st.playerBBox.bottom ≤ t.pos.y ∧
        st.playerBBox.left ≤ t.pos.x ∧ t.pos.x ≤ st.playerBBox.right + 1)
    · rw [hstepRaise hall.1 hall.2.1 hall.2.2.1 ⟨hall.2.2.2.1, hall.2.2.2.2.1, hall.2.2.2.2.2⟩,
        emitExitReached_eventLog]
      exact iff_of_true rfl hall
    · rw [hstepId hall]
      exact iff_of_false (by simp) hall
  · intro hlog
    by_cases hall : (t.active = true ∧ t.ttype = TriggerType.LevelExit ∧
        st.levelFinished = false ∧ st.playerBBox.bottom ≤ t.pos.y ∧
        st.playerBBox.left ≤ t.pos.x ∧ t.pos.x ≤ st.playerBBox.right + 1)
    · rw [hstepRaise hall.1 hall.2.1 hall.2.2.1 ⟨hall.2.2.2.1, hall.2.2.2.2.1, hall.2.2.2.2.2⟩,
        emitExitReached_eventLog] at hlog
      simp at hlog
    · rw [hstepId hall]
  · intro hradar
    rw [receiveExitReached]
    have hcond : (st.radarDishesPresent && true) = true := by rw [hradar]; rfl
    rw [if_pos hcond]
    constructor
    · rw [showTutorialMessage]
      split <;> rfl
    · intro hnotshown
      rw [showTutorialMessage, if_neg hnotshown]
  · intro b hb
    rw [receiveExitReached]
    have hcond : ¬ ((st.radarDishesPresent && b) = true) := by
      rcases hb with h | h <;> rw [h] <;> simp
    rw [if_neg hcond]

/-- C4 witness: a qualifying trigger raises the event in an unfinished level;
with radar dishes present the handler leaves the flag unchanged; without them
it finishes the level. -/
theorem C4_level_exit_witness :
    (exitTriggerStep baseGW exC4trigger).eventLog =
      baseGW.eventLog ++ [GEvent.exitReached true] ∧
    (receiveExitReached true exC4radar).levelFinished = exC4radar.levelFinished ∧
    (receiveExitReached false exC4radar).levelFinished = true :=
  ⟨(C4_level_exit baseGW exC4trigger).1.mpr (by decide),
   ((C4_level_exit exC4radar exC4trigger).2.2.1 rfl).1,
   (C4_level_exit exC4radar exC4trigger).2.2.2 false (Or.inr rfl)⟩


theorem reactor_preserves (st : GWState) :
    (updateReactorDestructionEvent st).playerPosition = st.playerPosition ∧
    (updateReactorDestructionEvent st).playerModel = st.playerModel ∧
    (updateReactorDestructionEvent st).liveActors = st.liveActors ∧
    (updateReactorDestructionEvent st).map = st.map ∧
    (updateReactorDestructionEvent st).effects = st.effects ∧
    (updateReactorDestructionEvent st).triggers = st.triggers ∧
    (updateReactorDestructionEvent st).activatedCheckpoint = st.activatedCheckpoint ∧
    (updateReactorDestructionEvent st).playerModelAtLevelStart = st.playerModelAtLevelStart ∧
    (updateReactorDestructionEvent st).playerDied = st.playerDied ∧
    (updateReactorDestructionEvent st).teleportTarget = st.teleportTarget := by
  rw [updateReactorDestructionEvent]
  split
  · simp
  · split_ifs <;> simp

theorem receive_dt_preserves (ev : GEvent) (st : GWState)
    (hev : ev = GEvent.playerDied ∨ ∃ q, ev = GEvent.playerTeleported q) :
    (receiveEvent ev st).playerPosition = st.playerPosition ∧
    (receiveEvent ev st).playerModel = st.playerModel ∧
    (receiveEvent ev st).liveActors = st.liveActors ∧
    (receiveEvent ev st).map = st.map ∧
    (receiveEvent ev st).effects = st.effects ∧
    (receiveEvent ev st).triggers = st.triggers ∧
    (receiveEvent ev st).activatedCheckpoint = st.activatedCheckpoint ∧
    (receiveEvent ev st).playerModelAtLevelStart = st.playerModelAtLevelStart := by
  rcases hev with rfl | ⟨q, rfl⟩ <;> exact ⟨rfl, rfl, rfl, rfl, rfl, rfl, rfl, rfl⟩

theorem foldl_receive_preserves (events : List GEvent) (st : GWState)
    (hevents : ∀ ev ∈ events, ev = GEvent.playerDied ∨ ∃ q, ev = GEvent.playerTeleported q) :
    ((events.foldl (fun s ev => receiveEvent ev s) st).playerPosition = st.playerPosition ∧
     (events.foldl (fun s ev => receiveEvent ev s) st).playerModel = st.playerModel ∧
     (events.foldl (fun s ev => receiveEvent ev s) st).liveActors = st.liveActors ∧
     (events.foldl (fun s ev => receiveEvent ev s) st).map = st.map ∧
     (events.foldl (fun s ev => receiveEvent ev s) st).effects = st.effects ∧
     (events.foldl (fun s ev => receiveEvent ev s) st).triggers = st.triggers ∧
     (events.foldl (fun s ev => receiveEvent ev s) st).activatedCheckpoint =
       st.activatedCheckpoint ∧
     (events.foldl (fun s ev => receiveEvent ev s) st).playerModelAtLevelStart =
       st.playerModelAtLevelStart) := by
  induction events generalizing st with
  | nil => exact ⟨rfl, rfl, rfl, rfl, rfl, rfl, rfl, rfl⟩
  | cons ev evs ih =>
    rw [List.foldl_cons]
    have h1 := receive_dt_preserves ev st (hevents ev (by simp))
    have h2 := ih (receiveEvent ev st) (fun e he => hevents e (by simp [he]))
    exact ⟨h2.1.trans h1.1, h2.2.1.trans h1.2.1, h2.2.2.1.trans h1.2.2.1,
      h2.2.2.2.1.trans h1.2.2.2.1, h2.2.2.2.2.1.trans h1.2.2.2.2.1,
      h2.2.2.2.2.2.1.trans h1.2.2.2.2.2.1, h2.2.2.2.2.2.2.1.trans h1.2.2.2.2.2.2.1,
      h2.2.2.2.2.2.2.2.trans h1.2.2.2.2.2.2.2⟩

theorem updateGameLogic_preserves (events : List GEvent) (st : GWState)
    (hevents : ∀ ev ∈ events, ev = GEvent.playerDied ∨ ∃ q, ev = GEvent.playerTeleported q) :
    (updateGameLogic events st).playerPosition = st.playerPosition ∧
    (updateGameLogic events st).playerModel = st.playerModel ∧
    (updateGameLogic events st).liveActors = st.liveActors ∧
    (updateGameLogic events st).map = st.map ∧
    (updateGameLogic events st).effects = st.effects ∧
    (updateGameLogic events st).triggers = st.triggers ∧
    (updateGameLogic events st).activatedCheckpoint = st.activatedCheckpoint ∧
    (updateGameLogic events st).playerModelAtLevelStart = st.playerModelAtLevelStart := by
  rw [updateGameLogic]
  simp only []
  split
  · have hre := reactor_preserves
      { st with backdropFlashColor := none, screenFlashColor := none }
    have hf := foldl_receive_preserves events
      (updateReactorDestructionEvent
        { st with backdropFlashColor := none, screenFlashColor := none }) hevents
    exact ⟨hf.1.trans hre.1, hf.2.1.trans hre.2.1, hf.2.2.1.trans hre.2.2.1,
      hf.2.2.2.1.trans hre.2.2.2.1, hf.2.2.2.2.1.trans hre.2.2.2.2.1,
      hf.2.2.2.2.2.1.trans hre.2.2.2.2.2.1, hf.2.2.2.2.2.2.1.trans hre.2.2.2.2.2.2.1,
      hf.2.2.2.2.2.2.2.trans hre.2.2.2.2.2.2.2.1⟩
  · have hf := foldl_receive_preserves events
      { st with backdropFlashColor := none, screenFlashColor := none } hevents
    exact ⟨hf.1, hf.2.1, hf.2.2.1, hf.2.2.2.1, hf.2.2.2.2.1, hf.2.2.2.2.2.1,
      hf.2.2.2.2.2.2.1, hf.2.2.2.2.2.2.2⟩

theorem updateGameLogic_died_flag (s : GWState) :
    (updateGameLogic [GEvent.playerDied] s).playerDied = true := rfl

theorem updateGameLogic_tel_target (p : WorldPosition) (s : GWState) :
    (updateGameLogic [GEvent.playerTeleported p] s).teleportTarget = some p := rfl

theorem updateGameLogic_tel_died (p : WorldPosition) (s : GWState) :
    (updateGameLogic [GEvent.playerTeleported p] s).playerDied = s.playerDied := by
  rw [updateGameLogic]
  simp only [List.foldl_cons, List.foldl_nil]
  split
  · exact (reactor_preserves _).2.2.2.2.2.2.2.2.1
  · rfl

theorem restartLevel_fields (s : GWState) :
    (restartLevel s).playerModel = s.playerModelAtLevelStart ∧
    (restartLevel s).playerDied = s.playerDied ∧
    (restartLevel s).triggers = s.triggers ∧
    (restartLevel s).teleportTarget = s.teleportTarget ∧
    (restartLevel s).map = s.mapAtLevelStart ∧
    (restartLevel s).liveActors = s.initialActors := by
  simp only [restartLevel]
  split_ifs <;> simp

theorem handlePlayerDeath_nodeath (s : GWState) (h : s.playerDied = false) :
    handlePlayerDeath s = s := by
  rw [handlePlayerDeath, if_neg (by simp [h])]

theorem handleLevelExit_nil (s : GWState) (h : s.triggers = []) :
    handleLevelExit s = s := by
  rw [handleLevelExit, h]
  rfl

theorem handleTeleporter_fields (s : GWState) :
    (handleTeleporter s).playerModel = s.playerModel ∧
    (handleTeleporter s).playerDied = s.playerDied := by
  rw [handleTeleporter]
  split
  · exact ⟨rfl, rfl⟩
  · simp only []
    split_ifs <;> simp

theorem handleTeleporter_applied (s : GWState) (q : WorldPosition)
    (h : s.teleportTarget = some q) :
    (handleTeleporter s).playerPosition = q ∧
    (handleTeleporter s).teleportTarget = none := by
  rw [handleTeleporter, h]
  simp only []
  split_ifs <;> simp

theorem endOfFrame_death (s : GWState) (hd : s.playerDied = true)
    (hcp : s.activatedCheckpoint = none) (htr : s.triggers = []) :
    (processEndOfFrameActions s).playerModel = s.playerModelAtLevelStart ∧
    (processEndOfFrameActions s).playerDied = false := by
  rw [processEndOfFrameActions]
  simp only []
  have hpd : handlePlayerDeath s = restartLevel { s with playerDied := false } := by
    rw [handlePlayerDeath, if_pos hd, if_neg]
    simp [hcp]
  rw [hpd]
  have hrl := restartLevel_fields { s with playerDied := false }
  have htr2 : (restartLevel { s with playerDied := false }).triggers = [] := by
    rw [hrl.2.2.1]
    exact htr
  rw [handleLevelExit_nil _ htr2]
  have hht := handleTeleporter_fields (restartLevel { s with playerDied := false })
  exact ⟨hht.1.trans hrl.1, hht.2.trans hrl.2.1⟩

theorem endOfFrame_teleport (s : GWState) (p : WorldPosition) (hd : s.playerDied = false)
    (htr : s.triggers = []) (htgt : s.teleportTarget = some p) :
    (processEndOfFrameActions s).playerPosition = p ∧
    (processEndOfFrameActions s).teleportTarget = none := by
  rw [processEndOfFrameActions]
  simp only []
  rw [handlePlayerDeath_nodeath s hd, handleLevelExit_nil s htr]
  exact handleTeleporter_applied s p htgt

/-- C3: a PlayerDied event only sets the pending-death flag and a
PlayerTeleported event only records the pending teleport target (full record
equality: nothing else changes); the simulation update with its synchronously
dispatched handlers never moves the player, restores a snapshot, resets actors
or touches the map or effect log; the actual restart and teleport transitions
happen inside processEndOfFrameActions, which the frame driver runs after the
update and after all handlers of the frame. -/
theorem C3_deferred_mutation (st : GWState) (p : WorldPosition) (events : List GEvent)
    (hevents : ∀ ev ∈ events, ev = GEvent.playerDied ∨ ∃ q, ev = GEvent.playerTeleported q) :
    receiveEvent GEvent.playerDied st = { st with playerDied := true } ∧
    receiveEvent (GEvent.playerTeleported p) st = { st with teleportTarget := some p } ∧
    ((updateGameLogic events st).playerPosition = st.playerPosition ∧
     (updateGameLogic events st).playerModel = st.playerModel ∧
     (updateGameLogic events st).liveActors = st.liveActors ∧
     (updateGameLogic events st).map = st.map ∧
     (updateGameLogic events st).effects = st.effects) ∧
    (st.activatedCheckpoint = none → st.triggers = [] →
       (runFrame [GEvent.playerDied] st).playerModel = st.playerModelAtLevelStart ∧
       (runFrame [GEvent.playerDied] st).playerDied = false) ∧
    (st.playerDied = false → st.triggers = [] →
       (updateGameLogic [GEvent.playerTeleported p] st).playerPosition = st.playerPosition ∧
       (runFrame [GEvent.playerTeleported p] st).playerPosition = p ∧
       (runFrame [GEvent.playerTeleported p] st).teleportTarget = none) := by
  have hU := updateGameLogic_preserves events st hevents
  refine ⟨rfl, rfl, ⟨hU.1, hU.2.1, hU.2.2.1, hU.2.2.2.1, hU.2.2.2.2.1⟩, ?_, ?_⟩
  · intro hcp htr
    have hUd := updateGameLogic_preserves [GEvent.playerDied] st
      (by intro ev hev; simp at hev; exact Or.inl hev)
    have h := endOfFrame_death
      { updateGameLogic [GEvent.playerDied] st with
        effects := (updateGameLogic [GEvent.playerDied] st).effects ++ [Effect.render] }
      (updateGameLogic_died_flag st)
      (show (updateGameLogic [GEvent.playerDied] st).activatedCheckpoint = none from
        (hUd.2.2.2.2.2.2.1).trans hcp)
      (show (updateGameLogic [GEvent.playerDied] st).triggers = [] from
        (hUd.2.2.2.2.2.1).trans htr)
    exact ⟨h.1.trans
        (show (updateGameLogic [GEvent.playerDied] st).playerModelAtLevelStart =
          st.playerModelAtLevelStart from hUd.2.2.2.2.2.2.2),
      h.2⟩
  · intro hnd htr
    have hUt := updateGameLogic_preserves [GEvent.playerTeleported p] st
      (by intro ev hev; simp at hev; exact Or.inr ⟨p, hev⟩)
    have h := endOfFrame_teleport
      { updateGameLogic [GEvent.playerTeleported p] st with
        effects := (updateGameLogic [GEvent.playerTeleported p] st).effects ++ [Effect.render] }
      p
      (show (updateGameLogic [GEvent.playerTeleported p] st).playerDied = false from
        (updateGameLogic_tel_died p st).trans hnd)
      (show (updateGameLogic [GEvent.playerTeleported p] st).triggers = [] from
        (hUt.2.2.2.2.2.1).trans htr)
      (updateGameLogic_tel_target p st)
    exact ⟨hUt.1, h.1, h.2⟩

/-- C3 witness: receiving PlayerDied only sets the flag; the restart and the
teleport are applied by the end-of-frame step of the frame in which the event
arrived. -/
theorem C3_deferred_mutation_witness :
    receiveEvent GEvent.playerDied exC3 = { exC3 with playerDied := true } ∧
    (runFrame [GEvent.playerDied] exC3).playerModel = exC3.playerModelAtLevelStart ∧
    (runFrame [GEvent.playerDied] exC3).playerDied = false ∧
    (runFrame [GEvent.playerTeleported { x := 5, y := 6 }] exC3).playerPosition =
      { x := 5, y := 6 } := by
  have h := C3_deferred_mutation exC3 { x := 5, y := 6 } [GEvent.playerDied]
    (by intro ev hev; simp at hev; exact Or.inl hev)
  exact ⟨h.1, (h.2.2.2.1 rfl rfl).1, (h.2.2.2.1 rfl rfl).2, (h.2.2.2.2 rfl rfl).2.1⟩

end Rigel
